import Mathlib

/-!
Shallow embedding of the filament pick-and-place choreography engine from
src/singleHand/app.js (the single-actor variant, which the claims cite for
the cycle clock, phase timeline, item registry latches, target selector and
slot allocator).  Simulated time is modelled with exact rationals.  The arm
pivot rotation is stored in units of pi radians, because every assignment
in the source is a rational multiple of pi; the machine-disk rotations are
plain radians, because the source increments them by the literal 0.1.
Counter fields (`pickAttachCalls`, ...) instrument how often each
threshold-guarded registry action executes; they mirror the call-count
instrumentation the specification itself prescribes and influence no other
field.
-/

namespace FilamentPacking

/-- Cubic easing, from easeInOutCubic in app.js. -/
def easeInOutCubic (t : ℚ) : ℚ :=
  if t < 1/2 then 4 * t ^ 3 else 1 - (-2 * t + 2) ^ 3 / 2

/-- Quadratic easing, from easeInOutQuad in app.js. -/
def easeInOutQuad (t : ℚ) : ℚ :=
  if t < 1/2 then 2 * t ^ 2 else 1 - (-2 * t + 2) ^ 2 / 2

/-- The phase identifiers of the 8-second single-hand timeline. -/
inductive PhaseName
  | spawn
  | pick
  | transportToWrapper
  | insertWrapper
  | wrapping
  | exitWrapper
  | transportToTray
  | placeInTray
  | reset
deriving DecidableEq, Repr

/-- One timeline entry: the source stores name, start and end offsets.  The
source field named end is a reserved word here, so it is called stop. -/
structure Phase where
  name : PhaseName
  start : ℚ
  stop : ℚ
deriving DecidableEq, Repr

/-- CYCLE_DURATION from app.js: one cycle lasts 8 seconds. -/
def CYCLE_DURATION : ℚ := 8

/-- The PHASES table of app.js (labels, being pure UI strings, are omitted). -/
def PHASES : List Phase :=
  [ { name := .spawn, start := 0, stop := 1/2 },
    { name := .pick, start := 1/2, stop := 3/2 },
    { name := .transportToWrapper, start := 3/2, stop := 3 },
    { name := .insertWrapper, start := 3, stop := 7/2 },
    { name := .wrapping, start := 7/2, stop := 11/2 },
    { name := .exitWrapper, start := 11/2, stop := 6 },
    { name := .transportToTray, start := 6, stop := 7 },
    { name := .placeInTray, start := 7, stop := 15/2 },
    { name := .reset, start := 15/2, stop := 8 } ]

/-- Geometry of the top (source) station, from MACHINE_CONFIG.topStation. -/
structure StationCfg where
  x : ℚ
  z : ℚ
  platformHeight : ℚ
deriving DecidableEq, Repr

/-- Position of a wrapping machine, from MACHINE_CONFIG.leftMachine / rightMachine. -/
structure MachineSideCfg where
  x : ℚ
  z : ℚ
deriving DecidableEq, Repr

/-- An output tray, from MACHINE_CONFIG.leftTray / rightTray. -/
structure TrayCfg where
  x : ℚ
  y : ℚ
  z : ℚ
  rows : ℕ
  cols : ℕ
deriving DecidableEq, Repr

/-- The fields of MACHINE_CONFIG that the choreography engine reads. -/
structure MachineConfig where
  topStation : StationCfg
  leftMachine : MachineSideCfg
  rightMachine : MachineSideCfg
  leftTray : TrayCfg
  rightTray : TrayCfg
deriving DecidableEq, Repr

/-- MACHINE_CONFIG from app.js (choreography-relevant fields). -/
def MACHINE_CONFIG : MachineConfig :=
  { topStation := { x := 0, z := -7, platformHeight := 3/10 },
    leftMachine := { x := -6, z := 0 },
    rightMachine := { x := 6, z := 0 },
    leftTray := { x := -6, y := 1/5, z := 4, rows := 2, cols := 4 },
    rightTray := { x := 6, y := 1/5, z := 4, rows := 2, cols := 4 } }

/-- A side of the machine: which wrapper/tray pair an actor services. -/
inductive Side
  | left
  | right
deriving DecidableEq, Repr

/-- The value of the selectedStation UI state: left, right, or the
alternating mode (the both option of the station select). -/
inductive StationSel
  | left
  | right
  | both
deriving DecidableEq, Repr

/-- The scene-graph parent of the in-flight bundle: either the world scene
or the rotating centerPivot group (being carried by the arm). -/
inductive Parent
  | scene
  | centerPivot
deriving DecidableEq, Repr

/-- A position, in the coordinates of the owning parent. -/
structure Vec3 where
  x : ℚ
  y : ℚ
  z : ℚ
deriving DecidableEq, Repr

/-- A bundle mesh: its identity, scene-graph parent, and local position. -/
structure BundleObj where
  id : ℕ
  parent : Parent
  pos : Vec3
deriving DecidableEq, Repr

/-- The mutable global simulation state of app.js (choreography fields of
the machine record plus the clock/UI globals), with call-count
instrumentation fields appended. -/
structure SimState where
  cycleTime : ℚ
  speed : ℚ
  isPaused : Bool
  selectedStation : StationSel
  cycleCount : ℤ
  currentBundle : Option BundleObj
  currentBundleIsWrapped : Bool
  centerPivotRotY : ℚ
  jawOffset : ℚ
  leftMachineDiskRotY : ℚ
  rightMachineDiskRotY : ℚ
  leftBundles : List BundleObj
  rightBundles : List BundleObj
  nextId : ℕ
  lastTarget : Option Side
  pickAttachCalls : ℕ
  insertDetachCalls : ℕ
  wrapConvertCalls : ℕ
  exitAttachCalls : ℕ
  placeCalls : ℕ
  leftEvictions : ℕ
  rightEvictions : ℕ
  leftTrayMaxLen : ℕ
deriving DecidableEq, Repr

/-- The JavaScript remainder a % b for the nonnegative dividends and the
positive divisor the animation loop uses. -/
def jsMod (a b : ℚ) : ℚ := a - b * ⌊a / b⌋

/-- getTargetStation from app.js: fixed left, fixed right, or alternation
on the parity of the cycle number. -/
def getTargetStation (sel : StationSel) (cycleNum : ℤ) : Side :=
  match sel with
  | .left => Side.left
  | .right => Side.right
  | .both => if cycleNum % 2 = 0 then Side.left else Side.right

/-- The linear phase lookup of the animate loop: first phase whose
half-open interval contains the loop time. -/
def findPhase (loopTime : ℚ) : List Phase → Option Phase
  | [] => none
  | p :: rest =>
      if p.start ≤ loopTime ∧ loopTime < p.stop then some p
      else findPhase loopTime rest

/-- Row/column of the k-th tray occupant, from the place_in_tray case
(row = floor(slotIndex / 4), col = slotIndex % 4). -/
def slotRowCol (slotIndex : ℕ) : ℕ × ℕ := (slotIndex / 4, slotIndex % 4)

/-- updateMachineAnimation from app.js: one frame of the phase-driven
state machine.  The loopTime argument is passed by the caller but, as in
the source, unused by the body. -/
def updateMachineAnimation (s : SimState) (phaseName : PhaseName)
    (progress : ℚ) (_loopTime : ℚ) : SimState :=
  let t := easeInOutCubic progress
  let currentCycle : ℤ := ⌊s.cycleTime / CYCLE_DURATION⌋
  let targetStation := getTargetStation s.selectedStation currentCycle
  let isLeft := targetStation = Side.left
  let topCfg := MACHINE_CONFIG.topStation
  let machineCfg := if isLeft then MACHINE_CONFIG.leftMachine else MACHINE_CONFIG.rightMachine
  let trayCfg := if isLeft then MACHINE_CONFIG.leftTray else MACHINE_CONFIG.rightTray
  let s := { s with lastTarget := some targetStation }
  match phaseName with
  | .spawn =>
      let fresh : BundleObj :=
        { id := s.nextId, parent := Parent.scene,
          pos := ⟨topCfg.x, topCfg.platformHeight + 2/5, topCfg.z⟩ }
      let s :=
        if s.currentBundle = none ∧ progress < 1/10 then
          { s with currentBundle := some fresh, currentBundleIsWrapped := false,
                   nextId := s.nextId + 1 }
        else s
      { s with centerPivotRotY := 0, jawOffset := 7/20 }
  | .pick =>
      let pickAngle := t * 0
      let jawDist := 7/20 - t * (1/10)
      let s := { s with centerPivotRotY := pickAngle, jawOffset := jawDist }
      match s.currentBundle with
      | some b =>
          if t > 1/2 then
            let b2 := { b with parent := Parent.centerPivot, pos := (⟨0, 1/5, -19/4⟩ : Vec3) }
            { s with currentBundle := some b2, pickAttachCalls := s.pickAttachCalls + 1 }
          else s
      | none => s
  | .transportToWrapper =>
      let targetAngle : ℚ := if isLeft then 1/2 else -(1/2)
      { s with centerPivotRotY := t * targetAngle, jawOffset := 1/4 }
  | .insertWrapper =>
      let insertAngle : ℚ := if isLeft then 1/2 else -(1/2)
      let releaseJaw := 1/4 + t * (1/10)
      let s := { s with centerPivotRotY := insertAngle, jawOffset := releaseJaw }
      match s.currentBundle with
      | some b =>
          if t > 1/2 ∧ b.parent ≠ Parent.scene then
            let b2 := { b with parent := Parent.scene,
                               pos := (⟨machineCfg.x, 3/2, machineCfg.z⟩ : Vec3) }
            { s with currentBundle := some b2, insertDetachCalls := s.insertDetachCalls + 1 }
          else s
      | none => s
  | .wrapping =>
      let s :=
        if isLeft then { s with leftMachineDiskRotY := s.leftMachineDiskRotY + 1/10 }
        else { s with rightMachineDiskRotY := s.rightMachineDiskRotY + 1/10 }
      let s :=
        match s.currentBundle with
        | some b =>
            let b2 := { b with pos := (⟨machineCfg.x, 3/2, machineCfg.z⟩ : Vec3) }
            { s with currentBundle := some b2 }
        | none => s
      if t > 9/10 ∧ s.currentBundleIsWrapped = false ∧ s.currentBundle.isSome then
        let fresh : BundleObj :=
          { id := s.nextId, parent := Parent.scene,
            pos := ⟨machineCfg.x, 3/2, machineCfg.z⟩ }
        { s with currentBundle := some fresh, nextId := s.nextId + 1,
                 currentBundleIsWrapped := true,
                 wrapConvertCalls := s.wrapConvertCalls + 1 }
      else s
  | .exitWrapper =>
      let exitAngle : ℚ := if isLeft then 1/2 else -(1/2)
      let grabJaw := 7/20 - t * (1/10)
      let s := { s with centerPivotRotY := exitAngle, jawOffset := grabJaw }
      match s.currentBundle with
      | some b =>
          if t > 1/2 then
            let b2 := { b with parent := Parent.centerPivot, pos := (⟨0, 1/5, -19/4⟩ : Vec3) }
            { s with currentBundle := some b2, exitAttachCalls := s.exitAttachCalls + 1 }
          else s
      | none => s
  | .transportToTray =>
      let trayAngle : ℚ := if isLeft then 3/4 else -(3/4)
      let startAngle : ℚ := if isLeft then 1/2 else -(1/2)
      { s with centerPivotRotY := startAngle + t * (trayAngle - startAngle), jawOffset := 1/4 }
  | .placeInTray =>
      let placeAngle : ℚ := if isLeft then 3/4 else -(3/4)
      let dropJaw := 1/4 + t * (3/20)
      let s := { s with centerPivotRotY := placeAngle, jawOffset := dropJaw }
      match s.currentBundle with
      | some b =>
          if t > 1/2 then
            let trayBundles := if isLeft then s.leftBundles else s.rightBundles
            let slotIndex := trayBundles.length
            let rc := slotRowCol slotIndex
            let placed : BundleObj :=
              { b with parent := Parent.scene,
                       pos := ⟨trayCfg.x + ((rc.2 : ℚ) * (7/10) - 21/20),
                               trayCfg.y + 3/5,
                               trayCfg.z + ((rc.1 : ℚ) * (7/10) - 7/20)⟩ }
            if isLeft then
              { s with leftBundles := s.leftBundles ++ [placed],
                       leftTrayMaxLen := max s.leftTrayMaxLen (s.leftBundles.length + 1),
                       currentBundle := none, currentBundleIsWrapped := false,
                       placeCalls := s.placeCalls + 1 }
            else
              { s with rightBundles := s.rightBundles ++ [placed],
                       currentBundle := none, currentBundleIsWrapped := false,
                       placeCalls := s.placeCalls + 1 }
          else s
      | none => s
  | .reset =>
      let finalAngle : ℚ := if isLeft then 3/4 else -(3/4)
      let s := { s with centerPivotRotY := finalAngle - t * finalAngle, jawOffset := 7/20 }
      let s :=
        if s.leftBundles.length > 8 then
          { s with leftBundles := s.leftBundles.tail, leftEvictions := s.leftEvictions + 1 }
        else s
      if s.rightBundles.length > 8 then
        { s with rightBundles := s.rightBundles.tail, rightEvictions := s.rightEvictions + 1 }
      else s


/-- One pass of the animate loop (the non-rendering part): advance the
clock, derive loop time and cycle counter, resolve the phase and run the
per-phase update. -/
def tick (s : SimState) (delta : ℚ) : SimState :=
  if s.isPaused then s
  else
    let cycleTime := s.cycleTime + delta * s.speed
    let loopTime := jsMod cycleTime CYCLE_DURATION
    let newCycleCount : ℤ := ⌊cycleTime / CYCLE_DURATION⌋
    let s := { s with cycleTime := cycleTime, cycleCount := newCycleCount }
    match findPhase loopTime PHASES with
    | some p =>
        updateMachineAnimation s p.name ((loopTime - p.start) / (p.stop - p.start)) loopTime
    | none => s

/-- Iterating the animation loop over a list of frame deltas. -/
def runFrames (s : SimState) (ds : List ℚ) : SimState := ds.foldl tick s

/-- The initial global state of app.js: clock at zero, speed 1, running,
no in-flight bundle, empty trays, arm neutral, jaws as built (x = 0.25). -/
def initState (sel : StationSel) : SimState :=
  { cycleTime := 0,
    speed := 1,
    isPaused := false,
    selectedStation := sel,
    cycleCount := 0,
    currentBundle := none,
    currentBundleIsWrapped := false,
    centerPivotRotY := 0,
    jawOffset := 1/4,
    leftMachineDiskRotY := 0,
    rightMachineDiskRotY := 0,
    leftBundles := [],
    rightBundles := [],
    nextId := 0,
    lastTarget := none,
    pickAttachCalls := 0,
    insertDetachCalls := 0,
    wrapConvertCalls := 0,
    exitAttachCalls := 0,
    placeCalls := 0,
    leftEvictions := 0,
    rightEvictions := 0,
    leftTrayMaxLen := 0 }

/-- The stationSelect change handler: overwrite the selected station. -/
def setStationSelect (s : SimState) (v : StationSel) : SimState :=
  { s with selectedStation := v }

/-- The loop time lies inside the wrapping phase window. -/
abbrev inWrapping (lt : ℚ) : Prop := 7/2 ≤ lt ∧ lt < 11/2

/-- The simulated times at which successive frames sample the cycle,
starting from clock value e with a fixed speed. -/
def sampleTimes (e speed : ℚ) : List ℚ → List ℚ
  | [] => []
  | d :: rest => (e + d * speed) :: sampleTimes (e + d * speed) speed rest

/-- How many of the sampled times fall in the wrapping phase window. -/
def wrappingFrameCount (e speed : ℚ) (ds : List ℚ) : ℕ :=
  (sampleTimes e speed ds).countP (fun x => decide (inWrapping (jsMod x CYCLE_DURATION)))

/-- The observable snapshot of the world state: loop time, cycle index,
active phase, actor pose, disk angles, the in-flight item and its
ownership, and the tray contents (the quantities the specification's tick
snapshot exposes).  Bookkeeping fields such as the id counter and the
instrumentation counters are not observable. -/
structure Snapshot where
  loopTime : ℚ
  cycleIndex : ℤ
  activePhase : Option PhaseName
  pivotRotY : ℚ
  jawOffset : ℚ
  leftDisk : ℚ
  rightDisk : ℚ
  bundle : Option BundleObj
  bundleWrapped : Bool
  leftTray : List BundleObj
  rightTray : List BundleObj
deriving DecidableEq, Repr

/-- Project the observable snapshot out of a simulation state. -/
def snapshot (s : SimState) : Snapshot :=
  { loopTime := jsMod s.cycleTime CYCLE_DURATION
  , cycleIndex := s.cycleCount
  , activePhase := (findPhase (jsMod s.cycleTime CYCLE_DURATION) PHASES).map Phase.name
  , pivotRotY := s.centerPivotRotY
  , jawOffset := s.jawOffset
  , leftDisk := s.leftMachineDiskRotY
  , rightDisk := s.rightMachineDiskRotY
  , bundle := s.currentBundle
  , bundleWrapped := s.currentBundleIsWrapped
  , leftTray := s.leftBundles
  , rightTray := s.rightBundles }

/-- Frame deltas of one full cycle sampled in 0.1 steps, preceded by a
0.01 offset so that the very first frame lands inside the spawn window. -/
def c1Deltas : List ℚ := (1/100 : ℚ) :: List.replicate 80 (1/10)

/-- Frame deltas visiting, in each cycle, one frame of the spawn window
and one frame of each latch window: loop times 0.01, 1.2, 3.3, 5.0, 7.3
and 7.6 of the first cycle. -/
def cycleDeltasFirst : List ℚ := [1/100, 119/100, 21/10, 17/10, 23/10, 3/10]

/-- The same loop-time visits for every later cycle (the first delta also
crosses the cycle boundary from loop time 7.6 to 0.01). -/
def cycleDeltasNext : List ℚ := [41/100, 119/100, 21/10, 17/10, 23/10, 3/10]

/-- Ten full cycles of the six-frame sampling: ten items get placed. -/
def c5Deltas : List ℚ := cycleDeltasFirst ++ (List.replicate 9 cycleDeltasNext).flatten

/-- Eight full cycles of the six-frame sampling followed by a ninth cycle
that stops right after its placement frame (loop time 7.3), before the
reset phase of that cycle runs. -/
def c9Deltas : List ℚ :=
  cycleDeltasFirst ++ (List.replicate 7 cycleDeltasNext).flatten ++
    [41/100, 119/100, 21/10, 17/10, 23/10]

/-- Driving elapsed time from 0 to k tenths of a second in 0.1 steps with
alternate targeting, including a frame at elapsed 0. -/
def c7Run (k : ℕ) : SimState :=
  runFrames (initState StationSel.both) ((0 : ℚ) :: List.replicate k (1/10))

/-! ## Generic facts about the clock and the timeline -/

/-- The JS remainder is nonnegative whenever the divisor is positive. -/
lemma jsMod_nonneg (b : ℚ) (hb : 0 < b) (a : ℚ) : 0 ≤ jsMod a b := by
  have h := Int.floor_le (a / b)
  have h2 : b * (⌊a / b⌋ : ℚ) ≤ b * (a / b) := by
    exact mul_le_mul_of_nonneg_left h (le_of_lt hb)
  have h3 : b * (a / b) = a := by field_simp
  unfold jsMod
  nlinarith
/-- The JS remainder is below a positive divisor. -/
lemma jsMod_lt (b : ℚ) (hb : 0 < b) (a : ℚ) : jsMod a b < b := by
  have h := Int.lt_floor_add_one (a / b)
  have h2 : b * (a / b) < b * ((⌊a / b⌋ : ℚ) + 1) := by
    exact mul_lt_mul_of_pos_left h hb
  have h3 : b * (a / b) = a := by field_simp
  unfold jsMod
  nlinarith

/-- Normalized progress over a nonempty interval containing the sample is
in the right-open unit interval. -/
lemma prog_bounds (a b lt : ℚ) (hab : a < b) (h1 : a ≤ lt) (h2 : lt < b) :
    0 ≤ (lt - a) / (b - a) ∧ (lt - a) / (b - a) < 1 := by
  constructor
  · exact div_nonneg (by linarith) (by linarith)
  · rw [div_lt_one (by linarith)]
    linarith

/-- Splitting the loop-time range along the configured phase boundaries. -/
lemma nineIntervals (lt : ℚ) (h0 : 0 ≤ lt) (h8 : lt < 8) :
    (0 ≤ lt ∧ lt < 1/2) ∨ (1/2 ≤ lt ∧ lt < 3/2) ∨ (3/2 ≤ lt ∧ lt < 3) ∨
    (3 ≤ lt ∧ lt < 7/2) ∨ (7/2 ≤ lt ∧ lt < 11/2) ∨ (11/2 ≤ lt ∧ lt < 6) ∨
    (6 ≤ lt ∧ lt < 7) ∨ (7 ≤ lt ∧ lt < 15/2) ∨ (15/2 ≤ lt ∧ lt < 8) := by
  by_cases h1 : lt < 1/2
  · exact Or.inl ⟨h0, h1⟩
  by_cases h2 : lt < 3/2
  · exact Or.inr (Or.inl ⟨by linarith, h2⟩)
  by_cases h3 : lt < 3
  · exact Or.inr (Or.inr (Or.inl ⟨by linarith, h3⟩))
  by_cases h4 : lt < 7/2
  · exact Or.inr (Or.inr (Or.inr (Or.inl ⟨by linarith, h4⟩)))
  by_cases h5 : lt < 11/2
  · exact Or.inr (Or.inr (Or.inr (Or.inr (Or.inl ⟨by linarith, h5⟩))))
  by_cases h6 : lt < 6
  · exact Or.inr (Or.inr (Or.inr (Or.inr (Or.inr (Or.inl ⟨by linarith, h6⟩)))))
  by_cases h7 : lt < 7
  · exact Or.inr (Or.inr (Or.inr (Or.inr (Or.inr (Or.inr (Or.inl ⟨by linarith, h7⟩))))))
  by_cases h9 : lt < 15/2
  · exact Or.inr (Or.inr (Or.inr (Or.inr (Or.inr (Or.inr (Or.inr (Or.inl ⟨by linarith, h9⟩)))))))
  · exact Or.inr (Or.inr (Or.inr (Or.inr (Or.inr (Or.inr (Or.inr (Or.inr ⟨by linarith, h8⟩)))))))

/-- Helper for the uniqueness half of the tiling claim: a phase of the
table whose interval contains lt is determined by which of the nine
boundary intervals lt falls in. -/
lemma phase_unique (lt : ℚ) (q : Phase) (hq : q ∈ PHASES)
    (hq1 : q.start ≤ lt) (hq2 : lt < q.stop) (p : Phase) (hp : p ∈ PHASES)
    (hp1 : p.start ≤ lt) (hp2 : lt < p.stop) : q = p := by
  simp only [PHASES, List.mem_cons, List.not_mem_nil, or_false] at hq hp
  rcases hq with rfl | rfl | rfl | rfl | rfl | rfl | rfl | rfl | rfl <;>
    rcases hp with rfl | rfl | rfl | rfl | rfl | rfl | rfl | rfl | rfl <;>
    first
      | rfl
      | (exfalso; dsimp only at hq1 hq2 hp1 hp2; linarith)

/-! ## Unfolding one tick -/

/-- Loop-time below 0.5 resolves to the spawn phase. -/
lemma findPhase_spawn (lt : ℚ) (h1 : 0 ≤ lt) (h2 : lt < 1/2) :
    findPhase lt PHASES = some { name := .spawn, start := 0, stop := 1/2 } := by
  simp only [findPhase, PHASES]
  rw [if_pos ⟨h1, h2⟩]

/-- Loop-time in the pick window resolves to the pick phase. -/
lemma findPhase_pick (lt : ℚ) (h1 : 1/2 ≤ lt) (h2 : lt < 3/2) :
    findPhase lt PHASES = some { name := .pick, start := 1/2, stop := 3/2 } := by
  simp only [findPhase, PHASES]
  rw [if_neg (by rintro ⟨-, hh⟩; linarith), if_pos ⟨h1, h2⟩]

/-- Loop-time in the first transport window resolves to that phase. -/
lemma findPhase_transportToWrapper (lt : ℚ) (h1 : 3/2 ≤ lt) (h2 : lt < 3) :
    findPhase lt PHASES =
      some { name := .transportToWrapper, start := 3/2, stop := 3 } := by
  simp only [findPhase, PHASES]
  rw [if_neg (by rintro ⟨-, hh⟩; linarith), if_neg (by rintro ⟨-, hh⟩; linarith),
    if_pos ⟨h1, h2⟩]

/-- Loop-time in the insert window resolves to that phase. -/
lemma findPhase_insertWrapper (lt : ℚ) (h1 : 3 ≤ lt) (h2 : lt < 7/2) :
    findPhase lt PHASES = some { name := .insertWrapper, start := 3, stop := 7/2 } := by
  simp only [findPhase, PHASES]
  rw [if_neg (by rintro ⟨-, hh⟩; linarith), if_neg (by rintro ⟨-, hh⟩; linarith),
    if_neg (by rintro ⟨-, hh⟩; linarith), if_pos ⟨h1, h2⟩]

/-- Loop-time in the wrapping window resolves to that phase. -/
lemma findPhase_wrapping (lt : ℚ) (h1 : 7/2 ≤ lt) (h2 : lt < 11/2) :
    findPhase lt PHASES = some { name := .wrapping, start := 7/2, stop := 11/2 } := by
  simp only [findPhase, PHASES]
  rw [if_neg (by rintro ⟨-, hh⟩; linarith), if_neg (by rintro ⟨-, hh⟩; linarith),
    if_neg (by rintro ⟨-, hh⟩; linarith), if_neg (by rintro ⟨-, hh⟩; linarith),
    if_pos ⟨h1, h2⟩]

/-- Loop-time in the exit window resolves to that phase. -/
lemma findPhase_exitWrapper (lt : ℚ) (h1 : 11/2 ≤ lt) (h2 : lt < 6) :
    findPhase lt PHASES = some { name := .exitWrapper, start := 11/2, stop := 6 } := by
  simp only [findPhase, PHASES]
  rw [if_neg (by rintro ⟨-, hh⟩; linarith), if_neg (by rintro ⟨-, hh⟩; linarith),
    if_neg (by rintro ⟨-, hh⟩; linarith), if_neg (by rintro ⟨-, hh⟩; linarith),
    if_neg (by rintro ⟨-, hh⟩; linarith), if_pos ⟨h1, h2⟩]

/-- Loop-time in the second transport window resolves to that phase. -/
lemma findPhase_transportToTray (lt : ℚ) (h1 : 6 ≤ lt) (h2 : lt < 7) :
    findPhase lt PHASES = some { name := .transportToTray, start := 6, stop := 7 } := by
  simp only [findPhase, PHASES]
  rw [if_neg (by rintro ⟨-, hh⟩; linarith), if_neg (by rintro ⟨-, hh⟩; linarith),
    if_neg (by rintro ⟨-, hh⟩; linarith), if_neg (by rintro ⟨-, hh⟩; linarith),
    if_neg (by rintro ⟨-, hh⟩; linarith), if_neg (by rintro ⟨-, hh⟩; linarith),
    if_pos ⟨h1, h2⟩]

/-- Loop-time in the place window resolves to that phase. -/
lemma findPhase_placeInTray (lt : ℚ) (h1 : 7 ≤ lt) (h2 : lt < 15/2) :
    findPhase lt PHASES = some { name := .placeInTray, start := 7, stop := 15/2 } := by
  simp only [findPhase, PHASES]
  rw [if_neg (by rintro ⟨-, hh⟩; linarith), if_neg (by rintro ⟨-, hh⟩; linarith),
    if_neg (by rintro ⟨-, hh⟩; linarith), if_neg (by rintro ⟨-, hh⟩; linarith),
    if_neg (by rintro ⟨-, hh⟩; linarith), if_neg (by rintro ⟨-, hh⟩; linarith),
    if_neg (by rintro ⟨-, hh⟩; linarith), if_pos ⟨h1, h2⟩]

/-- Loop-time in the reset window resolves to that phase. -/
lemma findPhase_reset (lt : ℚ) (h1 : 15/2 ≤ lt) (h2 : lt < 8) :
    findPhase lt PHASES = some { name := .reset, start := 15/2, stop := 8 } := by
  simp only [findPhase, PHASES]
  rw [if_neg (by rintro ⟨-, hh⟩; linarith), if_neg (by rintro ⟨-, hh⟩; linarith),
    if_neg (by rintro ⟨-, hh⟩; linarith), if_neg (by rintro ⟨-, hh⟩; linarith),
    if_neg (by rintro ⟨-, hh⟩; linarith), if_neg (by rintro ⟨-, hh⟩; linarith),
    if_neg (by rintro ⟨-, hh⟩; linarith), if_neg (by rintro ⟨-, hh⟩; linarith),
    if_pos ⟨h1, h2⟩]

/-- An unpaused tick advances the clock and runs the per-phase update for
the unique phase containing the new loop time. -/
lemma tick_unfold (s : SimState) (d : ℚ) (hp : s.isPaused = false) :
    ∃ p : Phase, p ∈ PHASES ∧
      p.start ≤ jsMod (s.cycleTime + d * s.speed) CYCLE_DURATION ∧
      jsMod (s.cycleTime + d * s.speed) CYCLE_DURATION < p.stop ∧
      tick s d =
        updateMachineAnimation
          { s with cycleTime := s.cycleTime + d * s.speed,
                   cycleCount := ⌊(s.cycleTime + d * s.speed) / CYCLE_DURATION⌋ }
          p.name
          ((jsMod (s.cycleTime + d * s.speed) CYCLE_DURATION - p.start) /
            (p.stop - p.start))
          (jsMod (s.cycleTime + d * s.speed) CYCLE_DURATION) := by
  have h0 : 0 ≤ jsMod (s.cycleTime + d * s.speed) CYCLE_DURATION :=
    jsMod_nonneg CYCLE_DURATION (by norm_num [CYCLE_DURATION]) _
  have h8 : jsMod (s.cycleTime + d * s.speed) CYCLE_DURATION < 8 := by
    have := jsMod_lt CYCLE_DURATION (by norm_num [CYCLE_DURATION]) (s.cycleTime + d * s.speed)
    simpa [CYCLE_DURATION] using this
  set lt := jsMod (s.cycleTime + d * s.speed) CYCLE_DURATION with hltdef
  have htick : tick s d =
      match findPhase lt PHASES with
      | some p =>
          updateMachineAnimation
            { s with cycleTime := s.cycleTime + d * s.speed,
                     cycleCount := ⌊(s.cycleTime + d * s.speed) / CYCLE_DURATION⌋ }
            p.name ((lt - p.start) / (p.stop - p.start)) lt
      | none =>
          { s with cycleTime := s.cycleTime + d * s.speed,
                   cycleCount := ⌊(s.cycleTime + d * s.speed) / CYCLE_DURATION⌋ } := by
    simp only [tick, hp, Bool.false_eq_true, if_false, hltdef]
  rcases nineIntervals lt h0 h8 with h | h | h | h | h | h | h | h | h
  · refine ⟨{ name := .spawn, start := 0, stop := 1/2 }, by simp [PHASES], h.1, h.2, ?_⟩
    rw [htick, findPhase_spawn lt h.1 h.2]
  · refine ⟨{ name := .pick, start := 1/2, stop := 3/2 }, by simp [PHASES], h.1, h.2, ?_⟩
    rw [htick, findPhase_pick lt h.1 h.2]
  · refine ⟨{ name := .transportToWrapper, start := 3/2, stop := 3 }, by simp [PHASES], h.1, h.2, ?_⟩
    rw [htick, findPhase_transportToWrapper lt h.1 h.2]
  · refine ⟨{ name := .insertWrapper, start := 3, stop := 7/2 }, by simp [PHASES], h.1, h.2, ?_⟩
    rw [htick, findPhase_insertWrapper lt h.1 h.2]
  · refine ⟨{ name := .wrapping, start := 7/2, stop := 11/2 }, by simp [PHASES], h.1, h.2, ?_⟩
    rw [htick, findPhase_wrapping lt h.1 h.2]
  · refine ⟨{ name := .exitWrapper, start := 11/2, stop := 6 }, by simp [PHASES], h.1, h.2, ?_⟩
    rw [htick, findPhase_exitWrapper lt h.1 h.2]
  · refine ⟨{ name := .transportToTray, start := 6, stop := 7 }, by simp [PHASES], h.1, h.2, ?_⟩
    rw [htick, findPhase_transportToTray lt h.1 h.2]
  · refine ⟨{ name := .placeInTray, start := 7, stop := 15/2 }, by simp [PHASES], h.1, h.2, ?_⟩
    rw [htick, findPhase_placeInTray lt h.1 h.2]
  · refine ⟨{ name := .reset, start := 15/2, stop := 8 }, by simp [PHASES], h.1, h.2, ?_⟩
    rw [htick, findPhase_reset lt h.1 h.2]

/-! ## Frame-level facts about the update and the tick -/

/-- The per-phase update never touches the pause flag. -/
lemma update_isPaused (s : SimState) (pn : PhaseName) (pr lt : ℚ) :
    (updateMachineAnimation s pn pr lt).isPaused = s.isPaused := by
  cases pn <;> simp only [updateMachineAnimation] <;> (repeat' split) <;> rfl

/-- The per-phase update never touches the speed. -/
lemma update_speed (s : SimState) (pn : PhaseName) (pr lt : ℚ) :
    (updateMachineAnimation s pn pr lt).speed = s.speed := by
  cases pn <;> simp only [updateMachineAnimation] <;> (repeat' split) <;> rfl

/-- The per-phase update never touches the station selection. -/
lemma update_selectedStation (s : SimState) (pn : PhaseName) (pr lt : ℚ) :
    (updateMachineAnimation s pn pr lt).selectedStation = s.selectedStation := by
  cases pn <;> simp only [updateMachineAnimation] <;> (repeat' split) <;> rfl

/-- The per-phase update never touches the clock. -/
lemma update_cycleTime (s : SimState) (pn : PhaseName) (pr lt : ℚ) :
    (updateMachineAnimation s pn pr lt).cycleTime = s.cycleTime := by
  cases pn <;> simp only [updateMachineAnimation] <;> (repeat' split) <;> rfl

/-- Outside the wrapping case no phase writes the left disk angle. -/
lemma update_leftDisk_notWrapping (s : SimState) (pn : PhaseName) (pr lt : ℚ)
    (hne : pn ≠ PhaseName.wrapping) :
    (updateMachineAnimation s pn pr lt).leftMachineDiskRotY = s.leftMachineDiskRotY := by
  cases pn <;> first
    | exact absurd rfl hne
    | (simp only [updateMachineAnimation] <;> (repeat' split) <;> rfl)

/-- The wrapping case advances the left disk angle by exactly 0.1 in
every frame it runs with a left target, and leaves it alone otherwise. -/
lemma update_leftDisk_wrapping (s : SimState) (pr lt : ℚ) :
    (updateMachineAnimation s PhaseName.wrapping pr lt).leftMachineDiskRotY =
      if getTargetStation s.selectedStation ⌊s.cycleTime / CYCLE_DURATION⌋ = Side.left
      then s.leftMachineDiskRotY + 1/10 else s.leftMachineDiskRotY := by
  simp only [updateMachineAnimation]
  (repeat' split) <;> simp_all

/-- Every phase records the target it used into the display field, always
recomputed from the live station selection and the current cycle index. -/
lemma update_lastTarget (s : SimState) (pn : PhaseName) (pr lt : ℚ) :
    (updateMachineAnimation s pn pr lt).lastTarget =
      some (getTargetStation s.selectedStation ⌊s.cycleTime / CYCLE_DURATION⌋) := by
  cases pn <;> simp only [updateMachineAnimation] <;> (repeat' split) <;> rfl

/-- When no item is in flight and the spawn window is not sampled, no
phase creates an item, flips the wrapped flag, or performs any of the
guarded pick/insert/wrap/exit/place actions. -/
lemma update_noBundle (s : SimState) (pn : PhaseName) (pr lt : ℚ)
    (hb : s.currentBundle = none)
    (hsp : pn = PhaseName.spawn → ¬ pr < 1/10) :
    (updateMachineAnimation s pn pr lt).currentBundle = none ∧
    (updateMachineAnimation s pn pr lt).currentBundleIsWrapped = s.currentBundleIsWrapped ∧
    (updateMachineAnimation s pn pr lt).pickAttachCalls = s.pickAttachCalls ∧
    (updateMachineAnimation s pn pr lt).insertDetachCalls = s.insertDetachCalls ∧
    (updateMachineAnimation s pn pr lt).wrapConvertCalls = s.wrapConvertCalls ∧
    (updateMachineAnimation s pn pr lt).exitAttachCalls = s.exitAttachCalls ∧
    (updateMachineAnimation s pn pr lt).placeCalls = s.placeCalls := by
  cases pn <;> simp only [updateMachineAnimation] <;> (repeat' split) <;> simp_all <;>
    linarith

/-- A paused tick is a no-op. -/
lemma tick_paused (s : SimState) (d : ℚ) (hp : s.isPaused = true) : tick s d = s := by
  simp [tick, hp]

/-- A tick never changes the pause flag. -/
lemma tick_isPaused (s : SimState) (d : ℚ) : (tick s d).isPaused = s.isPaused := by
  by_cases hp : s.isPaused
  · rw [tick_paused s d hp]
  · obtain ⟨p, -, -, -, heq⟩ := tick_unfold s d (by simpa using hp)
    rw [heq, update_isPaused]

/-- A tick never changes the speed. -/
lemma tick_speed (s : SimState) (d : ℚ) : (tick s d).speed = s.speed := by
  by_cases hp : s.isPaused
  · rw [tick_paused s d hp]
  · obtain ⟨p, -, -, -, heq⟩ := tick_unfold s d (by simpa using hp)
    rw [heq, update_speed]

/-- A tick never changes the station selection. -/
lemma tick_selectedStation (s : SimState) (d : ℚ) :
    (tick s d).selectedStation = s.selectedStation := by
  by_cases hp : s.isPaused
  · rw [tick_paused s d hp]
  · obtain ⟨p, -, -, -, heq⟩ := tick_unfold s d (by simpa using hp)
    rw [heq, update_selectedStation]

/-- An unpaused tick advances the clock by delta times speed. -/
lemma tick_cycleTime (s : SimState) (d : ℚ) (hp : s.isPaused = false) :
    (tick s d).cycleTime = s.cycleTime + d * s.speed := by
  obtain ⟨p, -, -, -, heq⟩ := tick_unfold s d hp
  rw [heq, update_cycleTime]

/-- A rational below the wrapping window start is not in the window. -/
lemma not_inWrapping_low {lt : ℚ} (h : lt < 7/2) : ¬ inWrapping lt :=
  fun hw => absurd hw.1 (by linarith)

/-- A rational at or past the wrapping window stop is not in the window. -/
lemma not_inWrapping_high {lt : ℚ} (h : 11/2 ≤ lt) : ¬ inWrapping lt :=
  fun hw => absurd hw.2 (by linarith)

/-- In one unpaused frame with the fixed-left target, the left disk
advances exactly 0.1 radians if the sampled loop time lies in the
wrapping window and is unchanged otherwise. -/
lemma tick_leftDisk (s : SimState) (d : ℚ) (hp : s.isPaused = false)
    (hsel : s.selectedStation = StationSel.left) :
    (tick s d).leftMachineDiskRotY =
      if inWrapping (jsMod (s.cycleTime + d * s.speed) CYCLE_DURATION)
      then s.leftMachineDiskRotY + 1/10 else s.leftMachineDiskRotY := by
  obtain ⟨p, hmem, h1, h2, heq⟩ := tick_unfold s d hp
  rw [heq]
  simp only [PHASES, List.mem_cons, List.not_mem_nil, or_false] at hmem
  rcases hmem with rfl | rfl | rfl | rfl | rfl | rfl | rfl | rfl | rfl <;>
    dsimp only at h1 h2 ⊢
  · rw [update_leftDisk_notWrapping _ _ _ _ (by decide),
      if_neg (not_inWrapping_low (by linarith))]
  · rw [update_leftDisk_notWrapping _ _ _ _ (by decide),
      if_neg (not_inWrapping_low (by linarith))]
  · rw [update_leftDisk_notWrapping _ _ _ _ (by decide),
      if_neg (not_inWrapping_low (by linarith))]
  · rw [update_leftDisk_notWrapping _ _ _ _ (by decide),
      if_neg (not_inWrapping_low (by linarith))]
  · rw [update_leftDisk_wrapping, if_pos (⟨h1, h2⟩ : inWrapping _)]
    simp [getTargetStation, hsel]
  · rw [update_leftDisk_notWrapping _ _ _ _ (by decide),
      if_neg (not_inWrapping_high (by linarith))]
  · rw [update_leftDisk_notWrapping _ _ _ _ (by decide),
      if_neg (not_inWrapping_high (by linarith))]
  · rw [update_leftDisk_notWrapping _ _ _ _ (by decide),
      if_neg (not_inWrapping_high (by linarith))]
  · rw [update_leftDisk_notWrapping _ _ _ _ (by decide),
      if_neg (not_inWrapping_high (by linarith))]

/-- One unpaused frame that does not sample the spawn window keeps the
no-item state and leaves every guarded-action counter alone. -/
lemma tick_noBundle (s : SimState) (d : ℚ) (hp : s.isPaused = false)
    (hb : s.currentBundle = none)
    (hw : ¬ jsMod (s.cycleTime + d * s.speed) CYCLE_DURATION < 1/20) :
    (tick s d).currentBundle = none ∧
    (tick s d).currentBundleIsWrapped = s.currentBundleIsWrapped ∧
    (tick s d).pickAttachCalls = s.pickAttachCalls ∧
    (tick s d).insertDetachCalls = s.insertDetachCalls ∧
    (tick s d).wrapConvertCalls = s.wrapConvertCalls ∧
    (tick s d).exitAttachCalls = s.exitAttachCalls ∧
    (tick s d).placeCalls = s.placeCalls := by
  obtain ⟨p, hmem, h1, h2, heq⟩ := tick_unfold s d hp
  rw [heq]
  refine update_noBundle _ _ _ _ hb ?_
  intro hname hpr
  simp only [PHASES, List.mem_cons, List.not_mem_nil, or_false] at hmem
  rcases hmem with rfl | rfl | rfl | rfl | rfl | rfl | rfl | rfl | rfl <;>
    revert hname <;> dsimp only at h1 h2 hpr ⊢ <;> intro hname
  · have : jsMod (s.cycleTime + d * s.speed) CYCLE_DURATION < 1/20 := by
      rw [div_lt_iff₀ (by norm_num)] at hpr
      linarith
    exact hw this
  all_goals exact absurd hname (by decide)

/-- C2: exactly one phase of the table is active at any loop time, with
normalized progress in the right-open unit interval. -/
theorem C2_phase_tiling (elapsed : ℚ) (_he : 0 ≤ elapsed) :
    (∃! p : Phase, p ∈ PHASES ∧ p.start ≤ jsMod elapsed CYCLE_DURATION ∧
        jsMod elapsed CYCLE_DURATION < p.stop) ∧
    (∀ p : Phase, p ∈ PHASES → p.start ≤ jsMod elapsed CYCLE_DURATION →
        jsMod elapsed CYCLE_DURATION < p.stop →
        0 ≤ (jsMod elapsed CYCLE_DURATION - p.start) / (p.stop - p.start) ∧
        (jsMod elapsed CYCLE_DURATION - p.start) / (p.stop - p.start) < 1) := by
  have h0 : 0 ≤ jsMod elapsed CYCLE_DURATION := by
    exact jsMod_nonneg CYCLE_DURATION (by norm_num [CYCLE_DURATION]) elapsed
  have h8 : jsMod elapsed CYCLE_DURATION < 8 := by
    have := jsMod_lt CYCLE_DURATION (by norm_num [CYCLE_DURATION]) elapsed
    simpa [CYCLE_DURATION] using this
  set lt := jsMod elapsed CYCLE_DURATION with hltdef
  constructor
  · rcases nineIntervals lt h0 h8 with h | h | h | h | h | h | h | h | h
    · exact ⟨{ name := .spawn, start := 0, stop := 1/2 },
        ⟨by simp [PHASES], by dsimp only; linarith [h.1], by dsimp only; linarith [h.2]⟩,
        fun q hq => phase_unique lt q hq.1 hq.2.1 hq.2.2 _ (by simp [PHASES])
          (by dsimp only; linarith [h.1]) (by dsimp only; linarith [h.2])⟩
    · exact ⟨{ name := .pick, start := 1/2, stop := 3/2 },
        ⟨by simp [PHASES], by dsimp only; linarith [h.1], by dsimp only; linarith [h.2]⟩,
        fun q hq => phase_unique lt q hq.1 hq.2.1 hq.2.2 _ (by simp [PHASES])
          (by dsimp only; linarith [h.1]) (by dsimp only; linarith [h.2])⟩
    · exact ⟨{ name := .transportToWrapper, start := 3/2, stop := 3 },
        ⟨by simp [PHASES], by dsimp only; linarith [h.1], by dsimp only; linarith [h.2]⟩,
        fun q hq => phase_unique lt q hq.1 hq.2.1 hq.2.2 _ (by simp [PHASES])
          (by dsimp only; linarith [h.1]) (by dsimp only; linarith [h.2])⟩
    · exact ⟨{ name := .insertWrapper, start := 3, stop := 7/2 },
        ⟨by simp [PHASES], by dsimp only; linarith [h.1], by dsimp only; linarith [h.2]⟩,
        fun q hq => phase_unique lt q hq.1 hq.2.1 hq.2.2 _ (by simp [PHASES])
          (by dsimp only; linarith [h.1]) (by dsimp only; linarith [h.2])⟩
    · exact ⟨{ name := .wrapping, start := 7/2, stop := 11/2 },
        ⟨by simp [PHASES], by dsimp only; linarith [h.1], by dsimp only; linarith [h.2]⟩,
        fun q hq => phase_unique lt q hq.1 hq.2.1 hq.2.2 _ (by simp [PHASES])
          (by dsimp only; linarith [h.1]) (by dsimp only; linarith [h.2])⟩
    · exact ⟨{ name := .exitWrapper, start := 11/2, stop := 6 },
        ⟨by simp [PHASES], by dsimp only; linarith [h.1], by dsimp only; linarith [h.2]⟩,
        fun q hq => phase_unique lt q hq.1 hq.2.1 hq.2.2 _ (by simp [PHASES])
          (by dsimp only; linarith [h.1]) (by dsimp only; linarith [h.2])⟩
    · exact ⟨{ name := .transportToTray, start := 6, stop := 7 },
        ⟨by simp [PHASES], by dsimp only; linarith [h.1], by dsimp only; linarith [h.2]⟩,
        fun q hq => phase_unique lt q hq.1 hq.2.1 hq.2.2 _ (by simp [PHASES])
          (by dsimp only; linarith [h.1]) (by dsimp only; linarith [h.2])⟩
    · exact ⟨{ name := .placeInTray, start := 7, stop := 15/2 },
        ⟨by simp [PHASES], by dsimp only; linarith [h.1], by dsimp only; linarith [h.2]⟩,
        fun q hq => phase_unique lt q hq.1 hq.2.1 hq.2.2 _ (by simp [PHASES])
          (by dsimp only; linarith [h.1]) (by dsimp only; linarith [h.2])⟩
    · exact ⟨{ name := .reset, start := 15/2, stop := 8 },
        ⟨by simp [PHASES], by dsimp only; linarith [h.1], by dsimp only; linarith [h.2]⟩,
        fun q hq => phase_unique lt q hq.1 hq.2.1 hq.2.2 _ (by simp [PHASES])
          (by dsimp only; linarith [h.1]) (by dsimp only; linarith [h.2])⟩
  · intro p hp hp1 hp2
    have hlt : p.start < p.stop := by
      simp only [PHASES, List.mem_cons, List.not_mem_nil, or_false] at hp
      rcases hp with rfl | rfl | rfl | rfl | rfl | rfl | rfl | rfl | rfl <;> norm_num
    exact prog_bounds p.start p.stop lt hlt hp1 hp2


/-- Witness for C2 at the concrete elapsed time 3. -/
theorem C2_witness :
    (0 : ℚ) ≤ 3 ∧
    ((∃! p : Phase, p ∈ PHASES ∧ p.start ≤ jsMod 3 CYCLE_DURATION ∧
        jsMod 3 CYCLE_DURATION < p.stop) ∧
      (∀ p : Phase, p ∈ PHASES → p.start ≤ jsMod 3 CYCLE_DURATION →
          jsMod 3 CYCLE_DURATION < p.stop →
          0 ≤ (jsMod 3 CYCLE_DURATION - p.start) / (p.stop - p.start) ∧
          (jsMod 3 CYCLE_DURATION - p.start) / (p.stop - p.start) < 1)) :=
  ⟨by norm_num, C2_phase_tiling 3 (by norm_num)⟩

/-! ## Claim C1: latch-once behaviour of the guarded registry actions -/

set_option maxRecDepth 10000 in
unseal Rat.add Rat.mul Rat.inv Rat.sub in
/-- C1 counterexample: stepping one full cycle in 0.1 increments (after a
0.01 offset into the spawn window), the pick attach-and-reanchor runs 5
times and the exit one 2 times, so the guarded transfers do not all fire
exactly once per traversal. -/
theorem C1_counterexample :
    (runFrames (initState StationSel.left) c1Deltas).pickAttachCalls = 5 ∧
    (runFrames (initState StationSel.left) c1Deltas).exitAttachCalls = 2 ∧
    ¬ ((runFrames (initState StationSel.left) c1Deltas).pickAttachCalls = 1 ∧
       (runFrames (initState StationSel.left) c1Deltas).exitAttachCalls = 1) := by
  decide

set_option maxRecDepth 10000 in
unseal Rat.add Rat.mul Rat.inv Rat.sub in
/-- C1 amended: over one full traversal sampled in 0.1 steps, the insert
transfer (guarded by a parent check), the place transfer (which clears the
carried item) and the wrap transform (guarded by the wrapped flag) fire
exactly once, while the unguarded pick and exit attach-and-reanchor
actions fire on every frame whose eased progress exceeds 0.5 (5 and 2
frames respectively). -/
theorem C1_amended_latch :
    (runFrames (initState StationSel.left) c1Deltas).insertDetachCalls = 1 ∧
    (runFrames (initState StationSel.left) c1Deltas).placeCalls = 1 ∧
    (runFrames (initState StationSel.left) c1Deltas).wrapConvertCalls = 1 ∧
    (runFrames (initState StationSel.left) c1Deltas).pickAttachCalls = 5 ∧
    (runFrames (initState StationSel.left) c1Deltas).exitAttachCalls = 2 := by
  decide

/-! ## Claim C3: determinism in elapsed time -/

set_option maxRecDepth 10000 in
unseal Rat.add Rat.mul Rat.inv Rat.sub in
/-- C3 counterexample: two runs with identical final elapsed time, speed
and configuration, differing only in how the elapsed time was partitioned
into frames, disagree on the processing-station disk angle. -/
theorem C3_counterexample :
    (runFrames (initState StationSel.left) [4]).cycleTime =
      (runFrames (initState StationSel.left) [18/5, 1/5, 1/5]).cycleTime ∧
    (runFrames (initState StationSel.left) [4]).speed =
      (runFrames (initState StationSel.left) [18/5, 1/5, 1/5]).speed ∧
    (runFrames (initState StationSel.left) [4]).selectedStation =
      (runFrames (initState StationSel.left) [18/5, 1/5, 1/5]).selectedStation ∧
    (runFrames (initState StationSel.left) [4]).leftMachineDiskRotY ≠
      (runFrames (initState StationSel.left) [18/5, 1/5, 1/5]).leftMachineDiskRotY := by
  decide

/-- C3 amended: the world state is a function of the whole frame sequence
rather than of elapsed time alone; in particular, with the fixed-left
target the left disk angle equals its initial value plus 0.1 for each
frame whose sampled loop time falls in the wrapping window. -/
theorem C3_amended_framewise (s : SimState) (ds : List ℚ)
    (hp : s.isPaused = false) (hsel : s.selectedStation = StationSel.left) :
    (runFrames s ds).leftMachineDiskRotY =
      s.leftMachineDiskRotY +
        (1/10) * (wrappingFrameCount s.cycleTime s.speed ds : ℚ) := by
  induction ds generalizing s with
  | nil => simp [runFrames, wrappingFrameCount, sampleTimes]
  | cons d rest ih =>
      have hp2 : (tick s d).isPaused = false := by rw [tick_isPaused]; exact hp
      have hsel2 : (tick s d).selectedStation = StationSel.left := by
        rw [tick_selectedStation]; exact hsel
      have hrw : runFrames s (d :: rest) = runFrames (tick s d) rest := rfl
      rw [hrw, ih (tick s d) hp2 hsel2, tick_leftDisk s d hp hsel,
        tick_cycleTime s d hp, tick_speed]
      have hcount : wrappingFrameCount s.cycleTime s.speed (d :: rest) =
          (if inWrapping (jsMod (s.cycleTime + d * s.speed) CYCLE_DURATION)
            then 1 else 0) +
            wrappingFrameCount (s.cycleTime + d * s.speed) s.speed rest := by
        simp only [wrappingFrameCount, sampleTimes, List.countP_cons,
          decide_eq_true_eq]
        split_ifs <;> omega
      rw [hcount]
      split_ifs with h <;> push_cast <;> ring

set_option maxRecDepth 10000 in
unseal Rat.add Rat.mul Rat.inv Rat.sub in
/-- Witness for the amended C3 at a concrete state and frame list. -/
theorem C3_witness :
    (initState StationSel.left).isPaused = false ∧
    (initState StationSel.left).selectedStation = StationSel.left ∧
    (runFrames (initState StationSel.left) [4]).leftMachineDiskRotY =
      (initState StationSel.left).leftMachineDiskRotY +
        (1/10) * (wrappingFrameCount (initState StationSel.left).cycleTime
          (initState StationSel.left).speed [4] : ℚ) :=
  ⟨rfl, rfl, C3_amended_framewise (initState StationSel.left) [4] rfl rfl⟩

/-! ## Claim C4: idempotence of a zero-delta tick -/

set_option maxRecDepth 10000 in
unseal Rat.add Rat.mul Rat.inv Rat.sub in
/-- C4 counterexample: at elapsed time 4 the loop time lies in the
wrapping phase, and a second zero-delta tick still advances the disk
angle, so the two snapshots differ. -/
theorem C4_counterexample :
    snapshot (tick (tick (tick (initState StationSel.left) 4) 0) 0) ≠
      snapshot (tick (tick (initState StationSel.left) 4) 0) := by
  decide

/-- The per-phase update never touches the cycle counter. -/
lemma update_cycleCount (s : SimState) (pn : PhaseName) (pr lt : ℚ) :
    (updateMachineAnimation s pn pr lt).cycleCount = s.cycleCount := by
  cases pn <;> simp only [updateMachineAnimation] <;> (repeat' split) <;> rfl

set_option maxHeartbeats 1600000 in
/-- Running the same non-wrapping phase update twice in a row with the
same progress is observably idempotent, provided the trays are at most one
over capacity: every guard either latches (insert, place, spawn) or
rewrites the very same values (poses, pick and exit reanchoring), and at
most one pending eviction exists. -/
lemma snapshot_update_idem (w : SimState) (pn : PhaseName) (pr lt : ℚ)
    (hl : w.leftBundles.length ≤ 9) (hr : w.rightBundles.length ≤ 9)
    (hnw : pn ≠ PhaseName.wrapping) :
    snapshot (updateMachineAnimation (updateMachineAnimation w pn pr lt) pn pr lt) =
      snapshot (updateMachineAnimation w pn pr lt) := by
  cases pn <;> first
    | exact absurd rfl hnw
    | (simp only [updateMachineAnimation]
       repeat' split
       all_goals try subst_vars
       all_goals try simp_all [snapshot, Snapshot.mk.injEq]
       all_goals try subst_vars
       all_goals try simp_all [snapshot, Snapshot.mk.injEq]
       all_goals omega)

/-! ## Claim C4 amended -/

/-- C4 amended: a second zero-delta tick reproduces the first snapshot
whenever the loop time is outside the wrapping phase and each tray holds
at most capacity + 1 items; inside the wrapping phase every zero-delta
tick still advances the disk angle by 0.1. -/
theorem C4_amended_idempotence (s : SimState)
    (hl : s.leftBundles.length ≤ 9) (hr : s.rightBundles.length ≤ 9)
    (hw : ¬ inWrapping (jsMod s.cycleTime CYCLE_DURATION)) :
    snapshot (tick (tick s 0) 0) = snapshot (tick s 0) := by
  by_cases hp : s.isPaused
  · have h1 : tick s 0 = s := tick_paused s 0 (by simpa using hp)
    rw [h1, h1]
  · have hp2 : s.isPaused = false := by simpa using hp
    obtain ⟨p, hmem, h1, h2, heq⟩ := tick_unfold s 0 hp2
    have hzero : s.cycleTime + 0 * s.speed = s.cycleTime := by ring
    rw [hzero] at h1 h2 heq
    have hpu : (tick s 0).isPaused = false := by rw [tick_isPaused]; exact hp2
    obtain ⟨q, hqmem, g1, g2, heq2⟩ := tick_unfold (tick s 0) 0 hpu
    have hct : (tick s 0).cycleTime = s.cycleTime := by
      rw [tick_cycleTime s 0 hp2]; ring
    rw [hct] at g1 g2 heq2
    have hzero2 : s.cycleTime + 0 * (tick s 0).speed = s.cycleTime := by ring
    rw [hzero2] at g1 g2 heq2
    have hqp : q = p :=
      phase_unique _ q hqmem g1 g2 p hmem h1 h2
    subst hqp
    have hclock : ∀ v : SimState, v.cycleTime = s.cycleTime →
        v.cycleCount = ⌊s.cycleTime / CYCLE_DURATION⌋ →
        ({ v with cycleTime := s.cycleTime,
                  cycleCount := ⌊s.cycleTime / CYCLE_DURATION⌋ } : SimState) = v := by
      intro v hv1 hv2
      cases v
      simp_all
    have hcc : (tick s 0).cycleCount = ⌊s.cycleTime / CYCLE_DURATION⌋ := by
      rw [heq, update_cycleCount]
    rw [heq2, hclock (tick s 0) hct hcc, heq]
    have hpn : q.name ≠ PhaseName.wrapping := by
      simp only [PHASES, List.mem_cons, List.not_mem_nil, or_false] at hmem
      rcases hmem with rfl | rfl | rfl | rfl | rfl | rfl | rfl | rfl | rfl <;>
        dsimp only at h1 h2 ⊢ <;>
        first
          | decide
          | exact absurd (⟨h1, h2⟩ : inWrapping _) hw
    exact snapshot_update_idem _ q.name _ _ hl hr hpn

set_option maxRecDepth 10000 in
unseal Rat.add Rat.mul Rat.inv Rat.sub in
/-- Witness for the amended C4 at a concrete reachable state outside the
wrapping phase. -/
theorem C4_witness :
    (tick (initState StationSel.left) 2).leftBundles.length ≤ 9 ∧
    (tick (initState StationSel.left) 2).rightBundles.length ≤ 9 ∧
    ¬ inWrapping (jsMod (tick (initState StationSel.left) 2).cycleTime CYCLE_DURATION) ∧
    snapshot (tick (tick (tick (initState StationSel.left) 2) 0) 0) =
      snapshot (tick (tick (initState StationSel.left) 2) 0) :=
  ⟨by decide, by decide, by decide,
    C4_amended_idempotence (tick (initState StationSel.left) 2)
      (by decide) (by decide) (by decide)⟩

/-! ## Claim C6: target selection across a cycle -/

set_option maxRecDepth 10000 in
unseal Rat.add Rat.mul Rat.inv Rat.sub in
/-- C6 counterexample: switching the station selection mid-cycle changes
the target used on the very next frame of the same cycle. -/
theorem C6_counterexample :
    (tick (initState StationSel.left) 2).cycleCount =
      (tick (setStationSelect (tick (initState StationSel.left) 2)
        StationSel.right) (1/10)).cycleCount ∧
    (tick (initState StationSel.left) 2).lastTarget = some Side.left ∧
    (tick (setStationSelect (tick (initState StationSel.left) 2)
      StationSel.right) (1/10)).lastTarget = some Side.right := by
  decide

/-- C6 amended: every frame recomputes the target from the live station
selection and the current cycle index, so the target is constant within a
cycle only while the configuration is unchanged, and a configuration
change takes effect on the next frame even mid-cycle. -/
theorem C6_amended_target (s : SimState) (d : ℚ) (hp : s.isPaused = false) :
    (tick s d).lastTarget =
      some (getTargetStation s.selectedStation
        ⌊(s.cycleTime + d * s.speed) / CYCLE_DURATION⌋) := by
  obtain ⟨p, -, -, -, heq⟩ := tick_unfold s d hp
  rw [heq, update_lastTarget]

/-- Witness for the amended C6 at a concrete state and delta. -/
theorem C6_witness :
    (initState StationSel.left).isPaused = false ∧
    (tick (initState StationSel.left) 2).lastTarget =
      some (getTargetStation (initState StationSel.left).selectedStation
        ⌊((initState StationSel.left).cycleTime +
            2 * (initState StationSel.left).speed) / CYCLE_DURATION⌋) :=
  ⟨rfl, C6_amended_target (initState StationSel.left) 2 rfl⟩

/-! ## Claim C5: tray FIFO and eviction -/

set_option maxRecDepth 10000 in
unseal Rat.add Rat.mul Rat.inv Rat.sub in
/-- C5: over ten cycles each placing one item into an 8-slot tray, ten
placements happen, exactly two evictions fire (in the reset phase, each
triggered by the count exceeding 8), the final tray holds the eight
newest items in placement order with the two oldest absent, and the
occupancy high-water mark is 9 = capacity + 1. -/
theorem C5_tray_fifo :
    MACHINE_CONFIG.leftTray.rows * MACHINE_CONFIG.leftTray.cols = 8 ∧
    (runFrames (initState StationSel.left) c5Deltas).placeCalls = 10 ∧
    (runFrames (initState StationSel.left) c5Deltas).leftEvictions = 2 ∧
    (runFrames (initState StationSel.left) c5Deltas).leftBundles.map BundleObj.id =
      [5, 7, 9, 11, 13, 15, 17, 19] ∧
    (runFrames (initState StationSel.left) c5Deltas).leftBundles.length = 8 ∧
    (runFrames (initState StationSel.left) c5Deltas).leftTrayMaxLen = 9 := by
  decide

/-! ## Claim C7: the concrete 8-second scenario -/

set_option maxRecDepth 10000 in
unseal Rat.add Rat.mul Rat.inv Rat.sub in
/-- C7 counterexample: at elapsed time exactly 1.0 (pick progress 0.5) the
strict progress guard has not yet fired, so the item is still owned by the
scene rather than attached to the actor. -/
theorem C7_counterexample :
    (c7Run 10).cycleTime = 1 ∧
    (c7Run 10).currentBundle.map BundleObj.parent = some Parent.scene ∧
    Parent.scene ≠ Parent.centerPivot := by
  decide

set_option maxRecDepth 10000 in
unseal Rat.add Rat.mul Rat.inv Rat.sub in
/-- C7 amended: in the 0.1-step drive with alternate targeting, the item
spawns at elapsed 0, attaches on the first frame strictly past pick
progress 0.5 (elapsed 1.1, not 1.0), is wrapped by elapsed 5.0, is placed
into left-tray slot (0,0) on the first frame strictly past place progress
0.5 (elapsed 7.3, not 7.25), and the cycle counter becomes 1 exactly at
elapsed 8.0. -/
theorem C7_amended_scenario :
    ((c7Run 0).currentBundle.isSome ∧ (c7Run 0).nextId = 1) ∧
    (c7Run 11).currentBundle.map BundleObj.parent = some Parent.centerPivot ∧
    ((c7Run 49).currentBundleIsWrapped = false ∧
      (c7Run 50).currentBundleIsWrapped = true ∧ (c7Run 50).cycleTime = 5) ∧
    ((c7Run 72).leftBundles = [] ∧
      (c7Run 73).leftBundles.map BundleObj.id = [1] ∧
      slotRowCol 0 = (0, 0) ∧
      (c7Run 73).leftBundles.map BundleObj.pos = [⟨-141/20, 4/5, 73/20⟩] ∧
      (c7Run 73).cycleTime = 73/10) ∧
    ((c7Run 79).cycleCount = 0 ∧ (c7Run 80).cycleCount = 1 ∧
      (c7Run 80).cycleTime = 8) := by
  decide

/-! ## Claim C8: the rotating indicator -/

set_option maxRecDepth 10000 in
unseal Rat.add Rat.mul Rat.inv Rat.sub in
/-- C8 counterexample: the disk angle is not a function of elapsed time
(two partitions of the same elapsed time disagree), and it does not
advance outside the wrapping phase (elapsed moves from 0 to 3 through
spawn, pick, transport and insert with the angle unchanged). -/
theorem C8_counterexample :
    ((runFrames (initState StationSel.left) [21/5]).cycleTime =
        (runFrames (initState StationSel.left) [18/5, 3/10, 3/10]).cycleTime ∧
      (runFrames (initState StationSel.left) [21/5]).leftMachineDiskRotY ≠
        (runFrames (initState StationSel.left) [18/5, 3/10, 3/10]).leftMachineDiskRotY) ∧
    ((runFrames (initState StationSel.left) [3]).cycleTime = 3 ∧
      (runFrames (initState StationSel.left) [3]).leftMachineDiskRotY =
        (initState StationSel.left).leftMachineDiskRotY) := by
  decide

/-- C8 amended: per frame, the left disk advances exactly 0.1 radians when
the sampled loop time lies in the wrapping window (under the fixed-left
target) and is unchanged in every other phase; its angle therefore counts
wrapping-phase frames instead of following elapsed time. -/
theorem C8_amended_disk (s : SimState) (d : ℚ) (hp : s.isPaused = false)
    (hsel : s.selectedStation = StationSel.left) :
    (tick s d).leftMachineDiskRotY =
      s.leftMachineDiskRotY +
        (if inWrapping (jsMod (s.cycleTime + d * s.speed) CYCLE_DURATION)
          then 1/10 else 0) := by
  rw [tick_leftDisk s d hp hsel]
  split_ifs <;> ring

/-- Witness for the amended C8 at a concrete state and delta. -/
theorem C8_witness :
    (initState StationSel.left).isPaused = false ∧
    (initState StationSel.left).selectedStation = StationSel.left ∧
    (tick (initState StationSel.left) 4).leftMachineDiskRotY =
      (initState StationSel.left).leftMachineDiskRotY +
        (if inWrapping (jsMod ((initState StationSel.left).cycleTime +
            4 * (initState StationSel.left).speed) CYCLE_DURATION)
          then 1/10 else 0) :=
  ⟨rfl, rfl, C8_amended_disk (initState StationSel.left) 4 rfl rfl⟩

/-! ## Claim C9: the over-capacity slot -/

set_option maxRecDepth 10000 in
unseal Rat.add Rat.mul Rat.inv Rat.sub in
/-- C9: a ninth placement into a full 2-by-4 tray is assigned slot index
8, i.e. row 2 and column 0 — one row past the nominal grid — because
eviction only runs later, in the reset phase; the over-capacity state
(9 occupants, no eviction yet, last item at the row-2 position) is
reachable. -/
theorem C9_overflow_slot :
    slotRowCol (MACHINE_CONFIG.leftTray.rows * MACHINE_CONFIG.leftTray.cols) = (2, 0) ∧
    MACHINE_CONFIG.leftTray.rows ≤ (slotRowCol 8).1 ∧
    (runFrames (initState StationSel.left) c9Deltas).leftBundles.length = 9 ∧
    (runFrames (initState StationSel.left) c9Deltas).leftEvictions = 0 ∧
    (runFrames (initState StationSel.left) c9Deltas).leftBundles.getLast? =
      some { id := 17, parent := Parent.scene,
             pos := ⟨-141/20, 4/5, 101/20⟩ } ∧
    MACHINE_CONFIG.leftTray.z + ((2 : ℚ) * (7/10) - 7/20) = 101/20 := by
  decide

/-! ## Claim C10: the spawn window -/

/-- C10: an item appears only on a frame sampling the first tenth of the
spawn phase; over any frame sequence avoiding that window, starting with
no item in flight, no item ever exists and none of the guarded pick,
insert, wrap-transform, exit or place actions runs. -/
theorem C10_spawn_window (s : SimState) (ds : List ℚ) (hp : s.isPaused = false)
    (hb : s.currentBundle = none)
    (hw : ∀ e ∈ sampleTimes s.cycleTime s.speed ds,
      ¬ jsMod e CYCLE_DURATION < 1/20) :
    (runFrames s ds).currentBundle = none ∧
    (runFrames s ds).currentBundleIsWrapped = s.currentBundleIsWrapped ∧
    (runFrames s ds).pickAttachCalls = s.pickAttachCalls ∧
    (runFrames s ds).insertDetachCalls = s.insertDetachCalls ∧
    (runFrames s ds).wrapConvertCalls = s.wrapConvertCalls ∧
    (runFrames s ds).exitAttachCalls = s.exitAttachCalls ∧
    (runFrames s ds).placeCalls = s.placeCalls := by
  induction ds generalizing s with
  | nil => exact ⟨hb, rfl, rfl, rfl, rfl, rfl, rfl⟩
  | cons d rest ih =>
      have hw1 : ¬ jsMod (s.cycleTime + d * s.speed) CYCLE_DURATION < 1/20 :=
        hw _ (by simp [sampleTimes])
      obtain ⟨hb2, hf2, hc1, hc2, hc3, hc4, hc5⟩ := tick_noBundle s d hp hb hw1
      have hp2 : (tick s d).isPaused = false := by rw [tick_isPaused]; exact hp
      have hw2 : ∀ e ∈ sampleTimes (tick s d).cycleTime (tick s d).speed rest,
          ¬ jsMod e CYCLE_DURATION < 1/20 := by
        rw [tick_cycleTime s d hp, tick_speed]
        intro e he
        refine hw e ?_
        simp only [sampleTimes, List.mem_cons]
        exact Or.inr he
      obtain ⟨g1, g2, g3, g4, g5, g6, g7⟩ := ih (tick s d) hp2 hb2 hw2
      have hrw : runFrames s (d :: rest) = runFrames (tick s d) rest := rfl
      rw [hrw]
      exact ⟨g1, g2.trans hf2, g3.trans hc1, g4.trans hc2, g5.trans hc3,
        g6.trans hc4, g7.trans hc5⟩

set_option maxRecDepth 10000 in
unseal Rat.add Rat.mul Rat.inv Rat.sub in
/-- Witness for C10: a two-frame sequence sampling elapsed 0.06 and 8.06
never enters the spawn window, and indeed produces no item and no guarded
action. -/
theorem C10_witness :
    (initState StationSel.left).isPaused = false ∧
    (initState StationSel.left).currentBundle = none ∧
    (∀ e ∈ sampleTimes (initState StationSel.left).cycleTime
        (initState StationSel.left).speed [3/50, 8],
      ¬ jsMod e CYCLE_DURATION < 1/20) ∧
    ((runFrames (initState StationSel.left) [3/50, 8]).currentBundle = none ∧
     (runFrames (initState StationSel.left) [3/50, 8]).currentBundleIsWrapped =
        (initState StationSel.left).currentBundleIsWrapped ∧
     (runFrames (initState StationSel.left) [3/50, 8]).pickAttachCalls =
        (initState StationSel.left).pickAttachCalls ∧
     (runFrames (initState StationSel.left) [3/50, 8]).insertDetachCalls =
        (initState StationSel.left).insertDetachCalls ∧
     (runFrames (initState StationSel.left) [3/50, 8]).wrapConvertCalls =
        (initState StationSel.left).wrapConvertCalls ∧
     (runFrames (initState StationSel.left) [3/50, 8]).exitAttachCalls =
        (initState StationSel.left).exitAttachCalls ∧
     (runFrames (initState StationSel.left) [3/50, 8]).placeCalls =
        (initState StationSel.left).placeCalls) :=
  ⟨rfl, rfl, by decide,
    C10_spawn_window (initState StationSel.left) [3/50, 8] rfl rfl (by decide)⟩

end FilamentPacking
